import Mathlib

/- Shallow embedding of the gamebox3d repository: the box-art customizer
   component (src/src/components/3d/BoxArtCustomizer.tsx) and the 3D viewer
   box model (BoxArt3DViewer). Strings model colors, titles and image
   references; rationals model the JS numbers; Nat models Date.now()
   timestamps. -/

/-- The platform identifiers offered by the customizer component. -/
inductive Platform where
  | xbox
  | playstation
  | pc
  | standard
deriving DecidableEq, Repr

/-- One entry of the customizer PLATFORM_CONFIGS table. -/
structure PlatformConfigEntry where
  baseColor : String
  name : String
deriving DecidableEq, Repr

/-- The PLATFORM_CONFIGS table of BoxArtCustomizer.tsx. -/
def PLATFORM_CONFIGS : Platform → PlatformConfigEntry
  | .xbox => { baseColor := "#107C10", name := "Xbox" }
  | .playstation => { baseColor := "#0070D1", name := "PlayStation" }
  | .pc => { baseColor := "#606060", name := "PC" }
  | .standard => { baseColor := "#707070", name := "Standard" }

/-- The CustomizationData record of BoxArtCustomizer.tsx. -/
structure CustomizationData where
  frontImage : String
  backImage : String
  spineImage : String
  frameColor : String
  platform : Platform
  title : String
  brightness : ℚ
  contrast : ℚ
  saturation : ℚ
  lastModified : Nat
deriving DecidableEq, Repr

/-- The initialData prop of BoxArtCustomizer (frontImageUrl required,
backImageUrl, spineImageUrl and title optional, platform required). -/
structure InitialData where
  frontImageUrl : String
  backImageUrl : Option String
  spineImageUrl : Option String
  platform : Platform
  title : Option String
deriving DecidableEq, Repr

/-- JavaScript a || b over an optional string, where the empty string is
falsy: used for the initialData fallback chains in the source. -/
def jsOrStr : Option String → String → String
  | some s, b => if s = "" then b else s
  | none, b => b

/-- JavaScript initialData?.platform || standard: platform identifiers are
non-empty strings, so only an absent initialData falls back. -/
def initPlatform : Option InitialData → Platform
  | some d => d.platform
  | none => Platform.standard

/-- The useState initializer of BoxArtCustomizer: the record the session
starts with, built from the optional initialData prop at time now. -/
def initialCustomization (now : Nat) (initialData : Option InitialData) :
    CustomizationData :=
  { frontImage := jsOrStr (initialData.map InitialData.frontImageUrl) ""
    backImage := jsOrStr (initialData.bind InitialData.backImageUrl)
      (jsOrStr (initialData.map InitialData.frontImageUrl) "")
    spineImage := jsOrStr (initialData.bind InitialData.spineImageUrl)
      (jsOrStr (initialData.map InitialData.frontImageUrl) "")
    frameColor := (PLATFORM_CONFIGS (initPlatform initialData)).baseColor
    platform := initPlatform initialData
    title := jsOrStr (initialData.bind InitialData.title) "Custom Box Art"
    brightness := 1
    contrast := 1
    saturation := 1
    lastModified := now }

/-- The resetCustomization callback: the source repeats the useState
initializer literal, again reading only the initialData prop. -/
def resetCustomization (now : Nat) (initialData : Option InitialData) :
    CustomizationData :=
  { frontImage := jsOrStr (initialData.map InitialData.frontImageUrl) ""
    backImage := jsOrStr (initialData.bind InitialData.backImageUrl)
      (jsOrStr (initialData.map InitialData.frontImageUrl) "")
    spineImage := jsOrStr (initialData.bind InitialData.spineImageUrl)
      (jsOrStr (initialData.map InitialData.frontImageUrl) "")
    frameColor := (PLATFORM_CONFIGS (initPlatform initialData)).baseColor
    platform := initPlatform initialData
    title := jsOrStr (initialData.bind InitialData.title) "Custom Box Art"
    brightness := 1
    contrast := 1
    saturation := 1
    lastModified := now }

/-- The title input onChange handler: spreads prev and sets title. -/
def updateTitle (v : String) (c : CustomizationData) : CustomizationData :=
  { c with title := v }

/-- The platform select onChange handler: spreads prev and sets both
platform and frameColor from the PLATFORM_CONFIGS table. -/
def updatePlatform (p : Platform) (c : CustomizationData) : CustomizationData :=
  { c with platform := p, frameColor := (PLATFORM_CONFIGS p).baseColor }

/-- The frame color inputs and preset buttons onChange handlers: spread prev
and set frameColor. -/
def updateFrameColor (v : String) (c : CustomizationData) : CustomizationData :=
  { c with frameColor := v }

/-- The brightness slider onValueChange handler. -/
def updateBrightness (v : ℚ) (c : CustomizationData) : CustomizationData :=
  { c with brightness := v }

/-- The contrast slider onValueChange handler. -/
def updateContrast (v : ℚ) (c : CustomizationData) : CustomizationData :=
  { c with contrast := v }

/-- The saturation slider onValueChange handler. -/
def updateSaturation (v : ℚ) (c : CustomizationData) : CustomizationData :=
  { c with saturation := v }

/-- The three image upload slots of the images tab. -/
inductive Slot where
  | front
  | back
  | spine
deriving DecidableEq, Repr

/-- The handleImageUpload reader.onload callback: spreads prev, sets the
slot image to the data URL read from the file, and stamps lastModified. -/
def handleImageUpload (slot : Slot) (result : String) (now : Nat)
    (c : CustomizationData) : CustomizationData :=
  match slot with
  | .front => { c with frontImage := result, lastModified := now }
  | .back => { c with backImage := result, lastModified := now }
  | .spine => { c with spineImage := result, lastModified := now }

/-- The saveCustomization callback: re-stamps lastModified on a copy of the
current record, drops every saved record with the same title, and appends
the copy; the resulting list is written wholesale to localStorage. -/
def saveCustomization (now : Nat) (cur : CustomizationData)
    (saved : List CustomizationData) : List CustomizationData :=
  (saved.filter (fun c => c.title != cur.title)) ++
    [{ cur with lastModified := now }]

/-- Loading by title: the saved tab renders one load button per record, so
selecting title t picks the first (and, by uniqueness, only) record with
that title; loadCustomization then makes it the current record. -/
def loadCustomization (t : String) (saved : List CustomizationData) :
    Option CustomizationData :=
  saved.find? (fun c => c.title == t)

/-- The deleteCustomization callback: keeps every record whose title
differs and writes the list wholesale to localStorage. -/
def deleteCustomization (t : String) (saved : List CustomizationData) :
    List CustomizationData :=
  saved.filter (fun c => c.title != t)

/-- The persisted collection is unique by title. -/
def UniqueTitles (l : List CustomizationData) : Prop :=
  (l.map (fun c => c.title)).Nodup

/-- Persisted collections reachable in the model: the store starts empty
and is only rewritten wholesale by saveCustomization and
deleteCustomization. -/
inductive Reachable : List CustomizationData → Prop where
  | empty : Reachable []
  | save : ∀ (now : Nat) (cur : CustomizationData) (l : List CustomizationData),
      Reachable l → Reachable (saveCustomization now cur l)
  | del : ∀ (t : String) (l : List CustomizationData),
      Reachable l → Reachable (deleteCustomization t l)

/-- The mutable state of the viewer BoxArtModel: group rotation, group
scale, the autoRotate flag and the hover flag. -/
structure ModelState where
  rotX : ℚ
  rotY : ℚ
  rotZ : ℚ
  scale : ℚ
  autoRotate : Bool
  hovered : Bool
deriving DecidableEq, Repr

/-- The useFrame callback of the viewer BoxArtModel, parametrized by the
sine of the environment clock (sinFn stands for Math.sin, t for
state.clock.elapsedTime): while autoRotate holds, rotY advances by 0.01
per frame and rotX, rotZ are bounded sinusoids of elapsed time; the hover
scale effect applies only while autoRotate is off. -/
def frameStep (sinFn : ℚ → ℚ) (t : ℚ) (s : ModelState) : ModelState :=
  let s1 :=
    if s.autoRotate then
      { s with
        rotY := s.rotY + 1/100
        rotX := sinFn (t * (2/5)) * (1/2)
        rotZ := sinFn (t * (3/10)) * (1/5) }
    else s
  if s1.hovered && !s1.autoRotate then
    { s1 with scale := 21/20 }
  else if !s1.autoRotate then
    { s1 with scale := 1 }
  else s1

/-- The onClick handler of the viewer BoxArtModel group: one click negates
the autoRotate flag once. -/
def toggleAutoRotate (s : ModelState) : ModelState :=
  { s with autoRotate := !s.autoRotate }

/-- A material descriptor for one logical face of the box mesh. -/
inductive FaceMaterial where
  | flat (color : String)
  | textured (source : String)
deriving DecidableEq, Repr

/-- The scene description the customizer box model emits: box geometry
dimensions plus one material per face. -/
structure SceneDesc where
  width : ℚ
  height : ℚ
  depth : ℚ
  materialRight : FaceMaterial
  materialLeft : FaceMaterial
  materialTop : FaceMaterial
  materialBottom : FaceMaterial
  materialFront : FaceMaterial
  materialBack : FaceMaterial
deriving DecidableEq, Repr

/-- The render output of CustomizableBoxModel: fixed 2.6 by 3.5 by 0.3
geometry; right, top and bottom faces flat frameColor; left face the spine
texture; front and back faces the front and back textures. The brightness,
contrast and saturation props only mark the textures needsUpdate (a no-op
on the scene description) and the platform prop is unused. -/
def customizableBoxScene (c : CustomizationData) : SceneDesc :=
  { width := 13/5
    height := 7/2
    depth := 3/10
    materialRight := FaceMaterial.flat c.frameColor
    materialLeft := FaceMaterial.textured c.spineImage
    materialTop := FaceMaterial.flat c.frameColor
    materialBottom := FaceMaterial.flat c.frameColor
    materialFront := FaceMaterial.textured c.frontImage
    materialBack := FaceMaterial.textured c.backImage }

/-- Membership in the title filter used by save and delete. -/
theorem mem_filter_title (c : CustomizationData) (t : String)
    (l : List CustomizationData) :
    c ∈ l.filter (fun x => x.title != t) ↔ c ∈ l ∧ c.title ≠ t := by
  simp [List.mem_filter]

/-- Filtering out an absent title is the identity. -/
theorem filter_title_eq_self (t : String) (l : List CustomizationData)
    (h : ∀ c ∈ l, c.title ≠ t) :
    l.filter (fun x => x.title != t) = l := by
  apply List.filter_eq_self.mpr
  intro a ha
  simpa using h a ha

/-- Filtering preserves title uniqueness. -/
theorem uniqueTitles_filter (p : CustomizationData → Bool)
    (l : List CustomizationData) (h : UniqueTitles l) :
    UniqueTitles (l.filter p) := by
  unfold UniqueTitles at h ⊢
  exact h.sublist ((List.filter_sublist l).map (fun c => c.title))

/-- Saving preserves title uniqueness. -/
theorem uniqueTitles_save (now : Nat) (cur : CustomizationData)
    (l : List CustomizationData) (h : UniqueTitles l) :
    UniqueTitles (saveCustomization now cur l) := by
  unfold UniqueTitles saveCustomization
  rw [List.map_append]
  refine List.nodup_append.mpr ⟨uniqueTitles_filter _ l h, by simp, ?_⟩
  intro a ha hb
  simp only [List.map_cons, List.map_nil, List.mem_singleton] at hb
  rcases List.mem_map.mp ha with ⟨c, hc, rfl⟩
  rcases (mem_filter_title c cur.title l).mp hc with ⟨-, hne⟩
  exact hne hb

/-- Deletion preserves title uniqueness. -/
theorem uniqueTitles_delete (t : String) (l : List CustomizationData)
    (h : UniqueTitles l) : UniqueTitles (deleteCustomization t l) :=
  uniqueTitles_filter _ l h

/-- Every reachable persisted collection is unique by title. -/
theorem reachable_uniqueTitles (l : List CustomizationData)
    (h : Reachable l) : UniqueTitles l := by
  induction h with
  | empty => simp [UniqueTitles]
  | save now cur l hl ih => exact uniqueTitles_save now cur l ih
  | del t l hl ih => exact uniqueTitles_delete t l ih

/-- On a collection unique by title, filtering out a present title removes
exactly one record. -/
theorem filter_title_length (t : String) :
    ∀ l : List CustomizationData, UniqueTitles l →
      t ∈ l.map (fun c => c.title) →
      (l.filter (fun x => x.title != t)).length + 1 = l.length := by
  intro l
  induction l with
  | nil =>
    intro _ hm
    simp at hm
  | cons a l ih =>
    intro h hm
    rw [List.map_cons, List.mem_cons] at hm
    have h2 : UniqueTitles l := by
      unfold UniqueTitles at h ⊢
      exact (List.nodup_cons.mp h).2
    by_cases hat : a.title = t
    · have hnotin : ∀ c ∈ l, c.title ≠ t := by
        intro c hc hct
        have hmem : a.title ∈ l.map (fun c => c.title) := by
          rw [hat, ← hct]
          exact List.mem_map_of_mem (fun c => c.title) hc
        exact (List.nodup_cons.mp h).1 hmem
      rw [List.filter_cons]
      have hf : (a.title != t) = false := by simp [hat]
      rw [hf]
      simp [filter_title_eq_self t l hnotin]
    · have hm2 : t ∈ l.map (fun c => c.title) :=
        hm.resolve_left (fun he => hat he.symm)
      have hkeep : (a.title != t) = true := by simpa using hat
      rw [List.filter_cons, hkeep]
      simp only [if_true, List.length_cons]
      have := ih h2 hm2
      omega

/-- C3: save followed by load of the same title returns exactly the record
that was saved, field for field, the lastModified stamped at save time
included. -/
theorem save_load_roundtrip (now : Nat) (cur : CustomizationData)
    (saved : List CustomizationData) :
    loadCustomization cur.title (saveCustomization now cur saved) =
      some { cur with lastModified := now } := by
  unfold loadCustomization saveCustomization
  induction saved with
  | nil => simp [List.find?]
  | cons a l ih =>
    by_cases h : a.title = cur.title
    · rw [List.filter_cons]
      have hf : (a.title != cur.title) = false := by simp [h]
      rw [hf]
      simp only [Bool.false_eq_true, if_false]
      exact ih
    · have hkeep : (a.title != cur.title) = true := by simpa using h
      rw [List.filter_cons, hkeep]
      simp only [if_true, List.cons_append, List.find?_cons]
      have hne : (a.title == cur.title) = false := by simpa using h
      rw [hne]
      simp only [Bool.false_eq_true, if_false]
      exact ih

/-- C4: on a reachable persisted collection, saving a record whose title is
already present keeps the collection size unchanged and replaces the old
record (the only record left with that title is the newly stamped one);
reachable collections are always unique by title. -/
theorem save_last_write_wins (l : List CustomizationData) (h : Reachable l)
    (now : Nat) (cur : CustomizationData) :
    UniqueTitles l ∧
    (cur.title ∈ l.map (fun c => c.title) →
      (saveCustomization now cur l).length = l.length) ∧
    UniqueTitles (saveCustomization now cur l) ∧
    ∀ c ∈ saveCustomization now cur l, c.title = cur.title →
      c = { cur with lastModified := now } := by
  have hu := reachable_uniqueTitles l h
  refine ⟨hu, ?_, uniqueTitles_save now cur l hu, ?_⟩
  · intro hm
    unfold saveCustomization
    rw [List.length_append]
    simpa using filter_title_length cur.title l hu hm
  · intro c hc hct
    unfold saveCustomization at hc
    rcases List.mem_append.mp hc with hc | hc
    · rcases (mem_filter_title c cur.title l).mp hc with ⟨-, hne⟩
      exact absurd hct hne
    · simpa using hc

/-- C4 witness: a collection holding one saved default record, re-saved at
a later time, keeps its size, and both collections are unique by title. -/
theorem save_last_write_wins_witness :
    UniqueTitles (saveCustomization 0 (initialCustomization 0 none) []) ∧
    (saveCustomization 1 (initialCustomization 0 none)
        (saveCustomization 0 (initialCustomization 0 none) [])).length =
      (saveCustomization 0 (initialCustomization 0 none) []).length := by
  have h := save_last_write_wins
    (saveCustomization 0 (initialCustomization 0 none) [])
    (Reachable.save 0 (initialCustomization 0 none) [] Reachable.empty)
    1 (initialCustomization 0 none)
  exact ⟨h.1, h.2.1 (by decide)⟩

/-- C5: deletion removes every record with the given title, a load after a
save followed by a delete of that title misses, and deleting an absent
title leaves the collection unchanged. -/
theorem delete_removes_title (t : String) (l : List CustomizationData)
    (now : Nat) (cur : CustomizationData) :
    (∀ c ∈ deleteCustomization t l, c.title ≠ t) ∧
    loadCustomization cur.title
      (deleteCustomization cur.title (saveCustomization now cur l)) = none ∧
    ((∀ c ∈ l, c.title ≠ t) → deleteCustomization t l = l) := by
  refine ⟨?_, ?_, ?_⟩
  · intro c hc
    unfold deleteCustomization at hc
    exact ((mem_filter_title c t l).mp hc).2
  · unfold loadCustomization
    rw [List.find?_eq_none]
    intro c hc
    unfold deleteCustomization at hc
    have hne := ((mem_filter_title c cur.title _).mp hc).2
    simpa using hne
  · intro hall
    unfold deleteCustomization
    exact filter_title_eq_self t l hall

/-- C5 witness: after saving the default record and deleting its title the
load misses, and deleting from the empty collection is the identity. -/
theorem delete_removes_title_witness :
    loadCustomization (initialCustomization 0 none).title
      (deleteCustomization (initialCustomization 0 none).title
        (saveCustomization 7 (initialCustomization 0 none) [])) = none ∧
    deleteCustomization "Halo" [] = [] := by
  have h := delete_removes_title "Halo" [] 7 (initialCustomization 0 none)
  exact ⟨h.2.1, h.2.2 (by simp)⟩

/-- The initial data of the counterexample scenario: a session opened on
the xbox platform. -/
def xboxSession : InitialData :=
  { frontImageUrl := "front.png"
    backImageUrl := none
    spineImageUrl := none
    platform := Platform.xbox
    title := none }

/-- C1 counterexample: open a session on xbox, switch the platform to
playstation through the settings control, then reset. At the moment of the
reset the record holds platform playstation, whose base color is the
playstation blue, but reset writes the xbox green taken from the initial
data, so the reset frameColor differs from the base color of the platform
held at the moment of the reset. -/
theorem reset_ignores_current_platform :
    (updatePlatform Platform.playstation
        (initialCustomization 0 (some xboxSession))).platform =
      Platform.playstation ∧
    (resetCustomization 5 (some xboxSession)).frameColor ≠
      (PLATFORM_CONFIGS
        (updatePlatform Platform.playstation
          (initialCustomization 0 (some xboxSession))).platform).baseColor := by
  refine ⟨rfl, ?_⟩
  decide

/-- C1 (amended): reset restores the defaults of the session's initial
data: frameColor becomes the base color of the initial platform, the
platform field is reset to that initial platform (so the restored record
is self-consistent), and brightness, contrast and saturation become 1.0. -/
theorem reset_restores_initial_defaults (now : Nat) (d : Option InitialData) :
    (resetCustomization now d).frameColor =
      (PLATFORM_CONFIGS (initPlatform d)).baseColor ∧
    (resetCustomization now d).platform = initPlatform d ∧
    (resetCustomization now d).frameColor =
      (PLATFORM_CONFIGS (resetCustomization now d).platform).baseColor ∧
    (resetCustomization now d).brightness = 1 ∧
    (resetCustomization now d).contrast = 1 ∧
    (resetCustomization now d).saturation = 1 :=
  ⟨rfl, rfl, rfl, rfl, rfl, rfl⟩

/-- C2 counterexample: on the default session record, editing the title
changes the title but leaves lastModified untouched (the title onChange
handler has no Date.now stamp), and the platform update overwrites
frameColor in addition to the platform field, so it does not replace
exactly the one targeted field. -/
theorem update_does_not_stamp :
    (updateTitle "My Game" (initialCustomization 0 none)).title ≠
      (initialCustomization 0 none).title ∧
    (updateTitle "My Game" (initialCustomization 0 none)).lastModified =
      (initialCustomization 0 none).lastModified ∧
    (updatePlatform Platform.playstation
        (initialCustomization 0 none)).frameColor ≠
      (initialCustomization 0 none).frameColor := by
  refine ⟨?_, rfl, ?_⟩ <;> decide

/-- C2 (amended): every panel update replaces the targeted field and always
succeeds; the platform update also overwrites frameColor with the platform
base color; and none of these updates stamps lastModified (only image
upload and save do). -/
theorem update_field_replacement (c : CustomizationData) (v : String)
    (q : ℚ) (p : Platform) :
    updateTitle v c = { c with title := v } ∧
    updateFrameColor v c = { c with frameColor := v } ∧
    updateBrightness q c = { c with brightness := q } ∧
    updateContrast q c = { c with contrast := q } ∧
    updateSaturation q c = { c with saturation := q } ∧
    updatePlatform p c =
      { c with platform := p,
               frameColor := (PLATFORM_CONFIGS p).baseColor } ∧
    (updateTitle v c).lastModified = c.lastModified ∧
    (updateFrameColor v c).lastModified = c.lastModified ∧
    (updateBrightness q c).lastModified = c.lastModified ∧
    (updateContrast q c).lastModified = c.lastModified ∧
    (updateSaturation q c).lastModified = c.lastModified ∧
    (updatePlatform p c).lastModified = c.lastModified :=
  ⟨rfl, rfl, rfl, rfl, rfl, rfl, rfl, rfl, rfl, rfl, rfl, rfl⟩

/-- C6: a session constructed with initial platform xbox starts with the
xbox green frameColor, and selecting playstation in the settings control
sets platform to playstation and overwrites frameColor with the
playstation blue from any state. -/
theorem xbox_start_playstation_switch (now : Nat) (fi : String)
    (bi si ti : Option String) (c : CustomizationData) :
    (initialCustomization now
        (some { frontImageUrl := fi, backImageUrl := bi,
                spineImageUrl := si, platform := Platform.xbox,
                title := ti })).frameColor = "#107C10" ∧
    (updatePlatform Platform.playstation c).platform =
      Platform.playstation ∧
    (updatePlatform Platform.playstation c).frameColor = "#0070D1" :=
  ⟨rfl, rfl, rfl⟩

/-- C7: an upload replaces only the targeted image slot: the other two
image slots keep the values they had before the upload, for each of the
three slots. -/
theorem upload_replaces_only_slot (res : String) (now : Nat)
    (c : CustomizationData) :
    (handleImageUpload Slot.front res now c).frontImage = res ∧
    (handleImageUpload Slot.front res now c).backImage = c.backImage ∧
    (handleImageUpload Slot.front res now c).spineImage = c.spineImage ∧
    (handleImageUpload Slot.back res now c).backImage = res ∧
    (handleImageUpload Slot.back res now c).frontImage = c.frontImage ∧
    (handleImageUpload Slot.back res now c).spineImage = c.spineImage ∧
    (handleImageUpload Slot.spine res now c).spineImage = res ∧
    (handleImageUpload Slot.spine res now c).frontImage = c.frontImage ∧
    (handleImageUpload Slot.spine res now c).backImage = c.backImage :=
  ⟨rfl, rfl, rfl, rfl, rfl, rfl, rfl, rfl, rfl⟩

/-- C8: a click negates the autoRotate flag exactly once (a second click
restores it), each frame advances rotY by 0.01 (a strict increase) while
the flag is true, and leaves rotY unchanged while the flag is false. -/
theorem click_toggles_rotation_advances (s : ModelState)
    (rx ry rz sc : ℚ) (hov : Bool) (t : ℚ) (sinFn : ℚ → ℚ) :
    (toggleAutoRotate s).autoRotate = !s.autoRotate ∧
    (toggleAutoRotate (toggleAutoRotate s)).autoRotate = s.autoRotate ∧
    (frameStep sinFn t
        { rotX := rx, rotY := ry, rotZ := rz, scale := sc,
          autoRotate := true, hovered := hov }).rotY = ry + 1/100 ∧
    ry < (frameStep sinFn t
        { rotX := rx, rotY := ry, rotZ := rz, scale := sc,
          autoRotate := true, hovered := hov }).rotY ∧
    (frameStep sinFn t
        { rotX := rx, rotY := ry, rotZ := rz, scale := sc,
          autoRotate := false, hovered := hov }).rotY = ry := by
  refine ⟨rfl, ?_, ?_, ?_, ?_⟩
  · simp [toggleAutoRotate]
  · cases hov <;> rfl
  · have heq : (frameStep sinFn t
        { rotX := rx, rotY := ry, rotZ := rz, scale := sc,
          autoRotate := true, hovered := hov }).rotY = ry + 1/100 := by
      cases hov <;> rfl
    rw [heq]
    linarith
  · cases hov <;> rfl

/-- C9: brightness, contrast and saturation are stored and displayed only:
two customization states that agree everywhere except those three slider
fields produce the same scene description, geometry and per-face materials
included. -/
theorem sliders_do_not_affect_scene (fi bi si fc : String) (p : Platform)
    (ti : String) (b1 k1 s1 b2 k2 s2 : ℚ) (lm : Nat) :
    customizableBoxScene
        { frontImage := fi, backImage := bi, spineImage := si,
          frameColor := fc, platform := p, title := ti,
          brightness := b1, contrast := k1, saturation := s1,
          lastModified := lm } =
      customizableBoxScene
        { frontImage := fi, backImage := bi, spineImage := si,
          frameColor := fc, platform := p, title := ti,
          brightness := b2, contrast := k2, saturation := s2,
          lastModified := lm } :=
  rfl

/-- C10: completing an image upload to any slot stamps lastModified with
the upload time, in addition to writing the uploaded data into the
targeted slot. -/
theorem upload_stamps_lastModified (slot : Slot) (res : String) (now : Nat)
    (c : CustomizationData) :
    (handleImageUpload slot res now c).lastModified = now ∧
    (handleImageUpload Slot.front res now c).frontImage = res ∧
    (handleImageUpload Slot.back res now c).backImage = res ∧
    (handleImageUpload Slot.spine res now c).spineImage = res := by
  refine ⟨?_, rfl, rfl, rfl⟩
  cases slot <;> rfl
